import Mathlib

/-!
Verification of the delta engine of `scripts/pr_score_delta.py`.

Python strings are modelled as `List Char`; Python ints as `Int`;
Python floats (JSON numbers) as `ℚ`, with `round(x, 1)` modelled as
round-half-to-even at one decimal place (Python's rounding mode).
Since `ℚ` has no negative zero, formatting of values in `(-0.05, 0)`
differs from CPython by a sign; no claim below depends on that.
Fallible / raising code paths are modelled by explicit outcome types.
-/

set_option maxRecDepth 4000

abbrev Str := List Char

/-! ## Numeric helpers: Python rounding and formatting -/

/-- Round-half-to-even of a rational to the nearest integer
(the rounding used by Python's `round` and `format`). -/
def rhe (x : ℚ) : Int :=
  let f := ⌊x⌋
  let r := x - (f : ℚ)
  if r < 1 / 2 then f
  else if 1 / 2 < r then f + 1
  else if f % 2 = 0 then f else f + 1

/-- Python's `round(x, 1)`: round to one decimal place, half to even. -/
def pyRound1 (x : ℚ) : ℚ := (rhe (10 * x) : ℚ) / 10

def digitChar (d : Nat) : Char := Char.ofNat (48 + d)

/-- Decimal digits, structurally recursive on a fuel argument so that the
kernel can evaluate it; `fuel ≥ 1 + digit count` always holds at the call
in `natStr`. -/
def natStrAux : Nat → Nat → Str
  | 0, _ => []
  | fuel + 1, n =>
      if n < 10 then [digitChar n]
      else natStrAux fuel (n / 10) ++ [digitChar (n % 10)]

/-- Decimal digits of a natural number, as Python's `str` renders them. -/
def natStr (n : Nat) : Str := natStrAux (n + 1) n

/-- Python `str` of an int. -/
def intStr (n : Int) : Str :=
  if n < 0 then '-' :: natStr n.natAbs else natStr n.natAbs

/-- Python format `{:+d}` of an int. -/
def fmtPlusD (n : Int) : Str :=
  if n < 0 then '-' :: natStr n.natAbs else '+' :: natStr n.natAbs

/-- Digits of `m` with a decimal point before the last digit
(`m` is the value scaled by 10). -/
def decStr (m : Nat) : Str := natStr (m / 10) ++ '.' :: natStr (m % 10)

/-- Python format `{:.1f}`. -/
def fmtF1 (q : ℚ) : Str :=
  let n := rhe (10 * q)
  if n < 0 then '-' :: decStr n.natAbs else decStr n.natAbs

/-- Python format `{:+.1f}`. -/
def fmtPlusF1 (q : ℚ) : Str :=
  let n := rhe (10 * q)
  if n < 0 then '-' :: decStr n.natAbs else '+' :: decStr n.natAbs

/-! ## Data model: the tolerated shapes of a scan/score JSON document.

A field that may be absent from the JSON object is an `Option`.
`Summary` is the object under `scan.summary`; `Scan` is the object under
`scan` (whose direct numeric fields are the fallback layout); `ScoreSec`
is the object under `score`. -/

structure Site where
  file : Option Str
  line : Option Int
  call : Option Str
  provider : Option Str
  instrumented : Option Bool
  deriving DecidableEq

structure Summary where
  sites_total : Option Int
  instrumented : Option Int
  uninstrumented : Option Int
  deriving DecidableEq

structure Scan where
  summary : Option Summary
  sites_total : Option Int
  instrumented : Option Int
  uninstrumented : Option Int
  sites : Option (List Site)
  deriving DecidableEq

structure ScoreSec where
  score : Option ℚ
  grade : Option Str
  deriving DecidableEq

structure Doc where
  scan : Option Scan
  score : Option ScoreSec
  sites : Option (List Site)
  deriving DecidableEq

def emptyScan : Scan := ⟨none, none, none, none, none⟩

/-- `doc.get("scan", {})`. -/
def scanNode (d : Doc) : Scan := d.scan.getD emptyScan

/-- `doc.get("scan", {}).get("summary", doc.get("scan", {})).get("sites_total", 0)`. -/
def sitesTotalOf (d : Doc) : Int :=
  match (scanNode d).summary with
  | some s => s.sites_total.getD 0
  | none => (scanNode d).sites_total.getD 0

def instrumentedOf (d : Doc) : Int :=
  match (scanNode d).summary with
  | some s => s.instrumented.getD 0
  | none => (scanNode d).instrumented.getD 0

def uninstrumentedOf (d : Doc) : Int :=
  match (scanNode d).summary with
  | some s => s.uninstrumented.getD 0
  | none => (scanNode d).uninstrumented.getD 0

def emptyScoreSec : ScoreSec := ⟨none, none⟩

/-- `doc.get("score", {}).get("score", 0)`. -/
def scoreValOf (d : Doc) : ℚ := (d.score.getD emptyScoreSec).score.getD 0

/-- `doc.get("score", {}).get("grade", "?")`. -/
def gradeOf (d : Doc) : Str := (d.score.getD emptyScoreSec).grade.getD "?".toList

/-! ## compute_delta -/

structure MetricD where
  base : Int
  head : Int
  delta : Int
  deriving DecidableEq

structure ScoreD where
  base : ℚ
  head : ℚ
  delta : ℚ
  deriving DecidableEq

structure GradeD where
  base : Str
  head : Str
  deriving DecidableEq

structure CovD where
  base : ℚ
  head : ℚ
  deriving DecidableEq

structure DeltaRec where
  sites_total : MetricD
  instrumented : MetricD
  uninstrumented : MetricD
  score : ScoreD
  grade : GradeD
  coverage_pct : CovD
  deriving DecidableEq

/-- `compute_delta(base, head)` from `scripts/pr_score_delta.py`. -/
def compute_delta (base head : Doc) : DeltaRec :=
  let b_sites := sitesTotalOf base
  let h_sites := sitesTotalOf head
  let b_instr := instrumentedOf base
  let h_instr := instrumentedOf head
  let b_uninstr := uninstrumentedOf base
  let h_uninstr := uninstrumentedOf head
  let b_score_val := scoreValOf base
  let h_score_val := scoreValOf head
  let b_grade := gradeOf base
  let h_grade := gradeOf head
  { sites_total := ⟨b_sites, h_sites, h_sites - b_sites⟩
    instrumented := ⟨b_instr, h_instr, h_instr - b_instr⟩
    uninstrumented := ⟨b_uninstr, h_uninstr, h_uninstr - b_uninstr⟩
    score := ⟨b_score_val, h_score_val, pyRound1 (h_score_val - b_score_val)⟩
    grade := ⟨b_grade, h_grade⟩
    coverage_pct :=
      ⟨if b_sites > 0 then pyRound1 ((b_instr : ℚ) / (b_sites : ℚ) * 100) else 0,
       if h_sites > 0 then pyRound1 ((h_instr : ℚ) / (h_sites : ℚ) * 100) else 0⟩ }

/-! ## find_new_uninstrumented -/

/-- `doc.get("scan", {}).get("sites", doc.get("sites", []))`. -/
def sitesOf (d : Doc) : List Site := (scanNode d).sites.getD (d.sites.getD [])

/-- The piece `{site.get('line', '')}` of the identity key. -/
def lineKeyStr : Option Int → Str
  | none => []
  | some n => intStr n

/-- `f"{site.get('file', '')}:{site.get('line', '')}:{site.get('call', '')}"`. -/
def keyOf (s : Site) : Str :=
  s.file.getD [] ++ ":".toList ++ lineKeyStr s.line ++ ":".toList ++ s.call.getD []

/-- The (file, line, call) identity triple the spec speaks about. -/
def tripleOf (s : Site) : Option Str × Option Int × Option Str :=
  (s.file, s.line, s.call)

structure SiteOut where
  file : Str
  line : Str
  call : Str
  provider : Str
  deriving DecidableEq

/-- `str(site.get("line", "?"))`. -/
def lineOutStr : Option Int → Str
  | none => "?".toList
  | some n => intStr n

/-- The dict appended to `head_new` for a qualifying head site. -/
def renderSite (s : Site) : SiteOut :=
  { file := s.file.getD "unknown".toList
    line := lineOutStr s.line
    call := s.call.getD "unknown".toList
    provider := s.provider.getD "unknown".toList }

/-- The loop condition: uninstrumented and key absent from the base key set. -/
def qualifies (base : Doc) (s : Site) : Bool :=
  !(s.instrumented.getD false) && !(decide (keyOf s ∈ (sitesOf base).map keyOf))

/-- `find_new_uninstrumented(base, head)` from `scripts/pr_score_delta.py`. -/
def find_new_uninstrumented (base head : Doc) : List SiteOut :=
  (((sitesOf head).filter (qualifies base)).map renderSite).take 10

/-! ## render_markdown -/

/-- The qualitative suffix after the score delta cell. -/
def scoreIcon (d : DeltaRec) : Str :=
  if d.score.delta > 0 then " [improved]".toList
  else if d.score.delta < 0 then " [regressed]".toList
  else []

def scoreRow (d : DeltaRec) : Str :=
  "| **Score** | ".toList ++ fmtF1 d.score.base ++ " | ".toList ++ fmtF1 d.score.head
    ++ " | ".toList ++ fmtPlusF1 d.score.delta ++ scoreIcon d ++ " |".toList

/-- `f"{g['base']} -> {g['head']}" if g['base'] != g['head'] else g['head']`. -/
def gradeChange (g : GradeD) : Str :=
  if g.base ≠ g.head then g.base ++ " -> ".toList ++ g.head else g.head

def gradeRow (d : DeltaRec) : Str :=
  "| **Grade** | ".toList ++ d.grade.base ++ " | ".toList ++ d.grade.head
    ++ " | ".toList ++ gradeChange d.grade ++ " |".toList

/-- A `| label | base | head | +delta |` row for an integer metric. -/
def countRow (label : Str) (m : MetricD) : Str :=
  "| ".toList ++ label ++ " | ".toList ++ intStr m.base ++ " | ".toList ++ intStr m.head
    ++ " | ".toList ++ fmtPlusD m.delta ++ " |".toList

def covRow (d : DeltaRec) : Str :=
  "| Coverage | ".toList ++ fmtF1 d.coverage_pct.base ++ "% | ".toList
    ++ fmtF1 d.coverage_pct.head ++ "% | ".toList
    ++ fmtPlusF1 (d.coverage_pct.head - d.coverage_pct.base) ++ "% |".toList

def siteRow (s : SiteOut) : Str :=
  "| `".toList ++ s.file ++ "` | ".toList ++ s.line ++ " | `".toList ++ s.call
    ++ "` | ".toList ++ s.provider ++ " |".toList

def fixHint : Str :=
  "> Fix: `pip install assay-ai && assay patch .` to auto-instrument these sites.".toList

def footerLine : Str :=
  "*Generated by [Assay Scorecard](https://haserjian.github.io/assay-scorecard/) | [Methodology](https://haserjian.github.io/assay-scorecard/methodology.html)*".toList

/-- The `lines` list built by `render_markdown`, in order. -/
def renderLines (d : DeltaRec) (ns : List SiteOut) : List Str :=
  ["## Evidence Readiness Score Delta".toList, [],
   "| Metric | Base | Head | Delta |".toList,
   "|--------|------|------|-------|".toList,
   scoreRow d, gradeRow d,
   countRow "Call Sites".toList d.sites_total,
   countRow "Instrumented".toList d.instrumented,
   countRow "Uninstrumented".toList d.uninstrumented,
   covRow d]
  ++ (if ns.isEmpty then [] else
      [[], "### New Uninstrumented Call Sites".toList, [],
       "| File | Line | Call | Provider |".toList,
       "|------|------|------|----------|".toList]
      ++ ns.map siteRow
      ++ [[], fixHint])
  ++ [[], "---".toList, footerLine]

/-- `"\n".join(lines)`. -/
def joinNl : List Str → Str
  | [] => []
  | [l] => l
  | l :: ls => l ++ '\n' :: joinNl ls

/-- `render_markdown(delta, new_sites)` from `scripts/pr_score_delta.py`. -/
def render_markdown (d : DeltaRec) (ns : List SiteOut) : Str := joinNl (renderLines d ns)

/-! ## The process-level behaviour of `main`.

An input file is either absent, present but not syntactically valid JSON
(`json.load` raises `json.JSONDecodeError`, which `main` catches), present
and valid JSON but not an object at top level (`json.load` succeeds, and
`compute_delta` then raises an uncaught `AttributeError` on `.get`), or a
well-shaped mapping. -/

inductive FileInput where
  | missing
  | invalidJson
  | notMapping
  | mapping (d : Doc)
  deriving DecidableEq

inductive Outcome where
  | exited (code : Nat)
  | uncaught
  deriving DecidableEq

/-- The `"regressed"` boolean of the structured output:
`delta["score"]["delta"] < 0`. -/
def regressedFlag (d : DeltaRec) : Bool := d.score.delta < 0

/-- Exit behaviour of `main`: existence checks first (exit 3), then JSON
decoding (decode errors are caught, exit 3), then `compute_delta` (raises
uncaught on a non-mapping document), then the fail-on-regression exit. -/
def mainOutcome (b h : FileInput) (failOnRegression : Bool) : Outcome :=
  if b = .missing ∨ h = .missing then .exited 3
  else if b = .invalidJson ∨ h = .invalidJson then .exited 3
  else match b, h with
    | .mapping db, .mapping dh =>
        if failOnRegression && regressedFlag (compute_delta db dh) then .exited 1
        else .exited 0
    | _, _ => .uncaught

/-! ## Definitions following the spec's words (for comparison with the code) -/

/-- From the spec: scan-summary fields are "resolved from `scan.summary` when
the `summary` key is present and from `scan` directly otherwise, independently
per document", with missing numeric fields defaulting to zero. -/
def specScanField (d : Doc) (fromSummary : Summary → Option Int)
    (fromScan : Scan → Option Int) : Int :=
  match d.scan with
  | some sc =>
      match sc.summary with
      | some su => (fromSummary su).getD 0
      | none => (fromScan sc).getD 0
  | none => 0

/-- From the spec: "`score.score` defaults to 0 ... when absent". -/
def specScoreVal (d : Doc) : ℚ :=
  match d.score with
  | some s => s.score.getD 0
  | none => 0

/-- From the spec: "`score.grade` defaults to the unknown-grade sentinel". -/
def specGrade (d : Doc) : Str :=
  match d.score with
  | some s => s.grade.getD "?".toList
  | none => "?".toList

/-- The qualifying head sites, before rendering and truncation. -/
def selectedSites (b h : Doc) : List Site := (sitesOf h).filter (qualifies b)

/-! ## Concrete documents used by witnesses and counterexamples -/

def docNone : Doc := ⟨none, none, none⟩

def blankSite : Site := ⟨none, none, none, none, none⟩

/-- 21 copies of an uninstrumented site: more than twice the output cap. -/
def bigHead : Doc := ⟨none, none, some (List.replicate 21 blankSite)⟩

def dupSite : Site :=
  ⟨some "app.py".toList, some 7, some "post".toList, some "openai".toList, some false⟩

/-- The same uninstrumented site three times over. -/
def dupHead : Doc := ⟨none, none, some [dupSite, dupSite, dupSite]⟩

/-- Base side of the key-collision pair: identity triple ("a:0", 1, "c"). -/
def cexBase : Doc :=
  ⟨none, none, some [⟨some "a:0".toList, some 1, some "c".toList, none, none⟩]⟩

/-- Head-side site with identity triple ("a", 0, "1:c"): a different triple,
but the same joined key "a:0:1:c" as the base site. -/
def cexSite : Site := ⟨some "a".toList, some 0, some "1:c".toList, none, some false⟩

def cexHead : Doc := ⟨none, none, some [cexSite]⟩

/-- A site whose identity triple occurs in both documents below. -/
def sameBaseSite : Site :=
  ⟨some "m.py".toList, some 3, some "call".toList, some "azure".toList, some true⟩

def sameHeadSite : Site :=
  ⟨some "m.py".toList, some 3, some "call".toList, some "openai".toList, some false⟩

def sameTripleBase : Doc := ⟨none, none, some [sameBaseSite]⟩

def sameTripleHead : Doc := ⟨none, none, some [sameHeadSite]⟩

/-- Scores 0.04 (base) and 0 (head): a raw regression of 0.04 that rounds
to a zero delta at one decimal place. -/
def tinyBase : Doc := ⟨none, some ⟨some (1 / 25), none⟩, none⟩

def tinyHead : Doc := ⟨none, some ⟨some 0, none⟩, none⟩

/-- `scan.summary.sites_total = -1`, `scan.summary.instrumented = 1`. -/
def negDoc : Doc :=
  ⟨some ⟨some ⟨some (-1), some 1, none⟩, none, none, none, none⟩, none, none⟩

/-- `scan.summary.sites_total = 10`, `scan.summary.instrumented = 4`. -/
def posDoc : Doc :=
  ⟨some ⟨some ⟨some 10, some 4, none⟩, none, none, none, none⟩, none, none⟩

/-- A neutral delta record: every metric 0, grade "F" unchanged. -/
def d0 : DeltaRec :=
  ⟨⟨0, 0, 0⟩, ⟨0, 0, 0⟩, ⟨0, 0, 0⟩, ⟨0, 0, 0⟩, ⟨"F".toList, "F".toList⟩, ⟨0, 0⟩⟩

/-- A rendered site whose file name contains the word "improved". -/
def s0bad : SiteOut :=
  ⟨"improved_api.py".toList, "1".toList, "x".toList, "p".toList⟩

/-- A positive delta record (score delta 5.0). -/
def dPos : DeltaRec :=
  ⟨⟨0, 0, 0⟩, ⟨0, 0, 0⟩, ⟨0, 0, 0⟩, ⟨10, 15, 5⟩, ⟨"F".toList, "F".toList⟩, ⟨0, 0⟩⟩

/-! ## Tokens and character sets for the rendering claims -/

def impTok : Str := "improved".toList

def regTok : Str := "regressed".toList

/-- The text neither contains "improved" nor "regressed" as a substring. -/
def noTok (s : Str) : Prop := ¬ impTok <:+: s ∧ ¬ regTok <:+: s

/-- All four text fields of a rendered site are token-free. -/
def cleanSite (s : SiteOut) : Prop :=
  noTok s.file ∧ noTok s.line ∧ noTok s.call ∧ noTok s.provider

def digitsL : Str := "0123456789".toList

def numChars : Str := "0123456789+-.".toList

/-- The backtick character, extracted from a string literal. -/
def btChar : Char := "`".toList.headD ' '

/-! ## Helper lemmas -/

theorem sitesTotalOf_eq_spec (d : Doc) :
    sitesTotalOf d = specScanField d (fun s => s.sites_total) (fun s => s.sites_total) := by
  unfold sitesTotalOf specScanField scanNode
  cases d.scan with
  | none => rfl
  | some sc => cases sc.summary <;> rfl

theorem instrumentedOf_eq_spec (d : Doc) :
    instrumentedOf d = specScanField d (fun s => s.instrumented) (fun s => s.instrumented) := by
  unfold instrumentedOf specScanField scanNode
  cases d.scan with
  | none => rfl
  | some sc => cases sc.summary <;> rfl

theorem uninstrumentedOf_eq_spec (d : Doc) :
    uninstrumentedOf d
      = specScanField d (fun s => s.uninstrumented) (fun s => s.uninstrumented) := by
  unfold uninstrumentedOf specScanField scanNode
  cases d.scan with
  | none => rfl
  | some sc => cases sc.summary <;> rfl

theorem scoreValOf_eq_spec (d : Doc) : scoreValOf d = specScoreVal d := by
  unfold scoreValOf specScoreVal
  cases d.score <;> rfl

theorem gradeOf_eq_spec (d : Doc) : gradeOf d = specGrade d := by
  unfold gradeOf specGrade
  cases d.score <;> rfl

theorem scoreDelta_eq (b h : Doc) :
    (compute_delta b h).score.delta = pyRound1 (scoreValOf h - scoreValOf b) := rfl

theorem regressedFlag_eq (b h : Doc) :
    regressedFlag (compute_delta b h)
      = decide (pyRound1 (scoreValOf h - scoreValOf b) < 0) := rfl

theorem find_new_eq (b h : Doc) :
    find_new_uninstrumented b h = ((selectedSites b h).map renderSite).take 10 := rfl

theorem rhe_low {x : ℚ} {f : ℤ} (h1 : (f : ℚ) ≤ x) (h2 : x - (f : ℚ) < 1 / 2) :
    rhe x = f := by
  have hf : ⌊x⌋ = f := Int.floor_eq_iff.mpr ⟨h1, by linarith⟩
  simp only [rhe, hf]
  rw [if_pos h2]

theorem rhe_high {x : ℚ} {f : ℤ} (h1 : x < (f : ℚ) + 1) (h2 : 1 / 2 < x - (f : ℚ)) :
    rhe x = f + 1 := by
  have hf : ⌊x⌋ = f := Int.floor_eq_iff.mpr ⟨by linarith, by linarith⟩
  simp only [rhe, hf]
  rw [if_neg (by linarith), if_pos h2]

theorem rhe_int (n : ℤ) : rhe (n : ℚ) = n := rhe_low (le_refl _) (by norm_num)

theorem coverage_base_eq (b h : Doc) :
    (compute_delta b h).coverage_pct.base
      = if sitesTotalOf b > 0
        then pyRound1 ((instrumentedOf b : ℚ) / (sitesTotalOf b : ℚ) * 100) else 0 := rfl

theorem coverage_head_eq (b h : Doc) :
    (compute_delta b h).coverage_pct.head
      = if sitesTotalOf h > 0
        then pyRound1 ((instrumentedOf h : ℚ) / (sitesTotalOf h : ℚ) * 100) else 0 := rfl

theorem mainOutcome_mapping (db dh : Doc) (fr : Bool) :
    mainOutcome (.mapping db) (.mapping dh) fr
      = if fr && regressedFlag (compute_delta db dh) then .exited 1 else .exited 0 := rfl

/-! ## Claim C2 -/

/-- Claim C2: `compute_delta` never raises when optional fields are missing
(it is a total function of two `Doc`s); each scan-summary field is resolved
from `scan.summary` when the summary key is present and from `scan` directly
otherwise, independently per document; `score.score` defaults to 0 and
`score.grade` defaults to the "?" sentinel; and the site-list resolution of
`find_new_uninstrumented` treats absent `scan`/`sites` keys as an empty list. -/
theorem claim_C2_tolerant_defaults :
    (∀ b h : Doc,
      (compute_delta b h).sites_total.base
          = specScanField b (fun s => s.sites_total) (fun s => s.sites_total)
      ∧ (compute_delta b h).sites_total.head
          = specScanField h (fun s => s.sites_total) (fun s => s.sites_total)
      ∧ (compute_delta b h).instrumented.base
          = specScanField b (fun s => s.instrumented) (fun s => s.instrumented)
      ∧ (compute_delta b h).instrumented.head
          = specScanField h (fun s => s.instrumented) (fun s => s.instrumented)
      ∧ (compute_delta b h).uninstrumented.base
          = specScanField b (fun s => s.uninstrumented) (fun s => s.uninstrumented)
      ∧ (compute_delta b h).uninstrumented.head
          = specScanField h (fun s => s.uninstrumented) (fun s => s.uninstrumented)
      ∧ (compute_delta b h).score.base = specScoreVal b
      ∧ (compute_delta b h).score.head = specScoreVal h
      ∧ (compute_delta b h).grade.base = specGrade b
      ∧ (compute_delta b h).grade.head = specGrade h)
  ∧ (∀ d : Doc, (scanNode d).sites = none → d.sites = none → sitesOf d = []) := by
  constructor
  · intro b h
    exact ⟨sitesTotalOf_eq_spec b, sitesTotalOf_eq_spec h,
      instrumentedOf_eq_spec b, instrumentedOf_eq_spec h,
      uninstrumentedOf_eq_spec b, uninstrumentedOf_eq_spec h,
      scoreValOf_eq_spec b, scoreValOf_eq_spec h,
      gradeOf_eq_spec b, gradeOf_eq_spec h⟩
  · intro d h1 h2
    simp [sitesOf, h1, h2]

/-- Witness for C2 at a document with no keys at all. -/
theorem claim_C2_witness : sitesOf docNone = [] :=
  claim_C2_tolerant_defaults.2 docNone rfl rfl

/-! ## Claim C6 -/

/-- Claim C6: the score delta is `round(head.score - base.score, 1)` and the
other metric deltas are the plain differences `head - base`. -/
theorem claim_C6_deltas (b h : Doc) :
    (compute_delta b h).score.delta = pyRound1 (scoreValOf h - scoreValOf b)
  ∧ (compute_delta b h).sites_total.delta = sitesTotalOf h - sitesTotalOf b
  ∧ (compute_delta b h).instrumented.delta = instrumentedOf h - instrumentedOf b
  ∧ (compute_delta b h).uninstrumented.delta = uninstrumentedOf h - uninstrumentedOf b :=
  ⟨rfl, rfl, rfl, rfl⟩

/-! ## Claim C5 (corrected) -/

/-- Counterexample to C5 as stated: with `sites_total = -1` (nonzero) and
`instrumented = 1`, the code yields coverage 0, not the rounded ratio -100
the claim requires for every nonzero `sites_total`. -/
theorem claim_C5_cex :
    sitesTotalOf negDoc = -1
  ∧ instrumentedOf negDoc = 1
  ∧ (compute_delta negDoc negDoc).coverage_pct.base = 0
  ∧ pyRound1 ((instrumentedOf negDoc : ℚ) / (sitesTotalOf negDoc : ℚ) * 100) = -100
  ∧ (0 : ℚ) ≠ -100 := by
  refine ⟨rfl, rfl, rfl, ?_, by norm_num⟩
  have h1 : instrumentedOf negDoc = 1 := rfl
  have h2 : sitesTotalOf negDoc = -1 := rfl
  rw [h1, h2]
  have h3 : ((1 : ℤ) : ℚ) / ((-1 : ℤ) : ℚ) * 100 = ((-100 : ℤ) : ℚ) := by norm_num
  rw [h3, pyRound1]
  have h4 : (10 : ℚ) * ((-100 : ℤ) : ℚ) = ((-1000 : ℤ) : ℚ) := by norm_num
  rw [h4, rhe_int]
  norm_num

/-- Claim C5 as amended: per side, coverage equals
`round(instrumented / sites_total * 100, 1)` when `sites_total` is strictly
positive, and is exactly 0 when `sites_total ≤ 0` (in particular when it is
0), regardless of the instrumented value. -/
theorem claim_C5_coverage (b h : Doc) :
    (0 < sitesTotalOf b →
      (compute_delta b h).coverage_pct.base
        = pyRound1 ((instrumentedOf b : ℚ) / (sitesTotalOf b : ℚ) * 100))
  ∧ (sitesTotalOf b ≤ 0 → (compute_delta b h).coverage_pct.base = 0)
  ∧ (0 < sitesTotalOf h →
      (compute_delta b h).coverage_pct.head
        = pyRound1 ((instrumentedOf h : ℚ) / (sitesTotalOf h : ℚ) * 100))
  ∧ (sitesTotalOf h ≤ 0 → (compute_delta b h).coverage_pct.head = 0) := by
  refine ⟨fun hp => ?_, fun hn => ?_, fun hp => ?_, fun hn => ?_⟩
  · rw [coverage_base_eq, if_pos hp]
  · rw [coverage_base_eq, if_neg (by omega)]
  · rw [coverage_head_eq, if_pos hp]
  · rw [coverage_head_eq, if_neg (by omega)]

/-- Witness for C5: both branches at concrete documents. -/
theorem claim_C5_witness :
    (compute_delta posDoc posDoc).coverage_pct.base
      = pyRound1 ((instrumentedOf posDoc : ℚ) / (sitesTotalOf posDoc : ℚ) * 100)
  ∧ (compute_delta negDoc negDoc).coverage_pct.head = 0 :=
  ⟨(claim_C5_coverage posDoc posDoc).1 (by decide),
   (claim_C5_coverage negDoc negDoc).2.2.2 (by decide)⟩

/-! ## Claim C9 -/

theorem tiny_round_zero :
    pyRound1 (scoreValOf tinyHead - scoreValOf tinyBase) = 0 := by
  have e1 : scoreValOf tinyBase = 1 / 25 := rfl
  have e2 : scoreValOf tinyHead = 0 := rfl
  rw [e1, e2, pyRound1]
  have h3 : (10 : ℚ) * ((0 : ℚ) - 1 / 25) = -2 / 5 := by norm_num
  rw [h3]
  have h4 := @rhe_high (-2 / 5 : ℚ) (-1) (by norm_num) (by norm_num)
  rw [h4]
  norm_num

/-- Claim C9: the structured output's `regressed` boolean and the
fail-on-regression exit decision are both computed from the rounded score
delta, not the raw difference; at base score 0.04 and head score 0 the raw
difference is negative but `regressed` is false and the process exits 0
even with fail-on-regression set. -/
theorem claim_C9_rounded_regression :
    (∀ b h : Doc, regressedFlag (compute_delta b h)
        = decide (pyRound1 (scoreValOf h - scoreValOf b) < 0))
  ∧ (∀ b h : Doc, ∀ fr : Bool,
        mainOutcome (.mapping b) (.mapping h) fr = .exited 1
          ↔ fr = true ∧ pyRound1 (scoreValOf h - scoreValOf b) < 0)
  ∧ (scoreValOf tinyHead - scoreValOf tinyBase < 0
      ∧ regressedFlag (compute_delta tinyBase tinyHead) = false
      ∧ mainOutcome (.mapping tinyBase) (.mapping tinyHead) true = .exited 0) := by
  refine ⟨fun b h => rfl, fun b h fr => ?_, ?_, ?_, ?_⟩
  · rw [mainOutcome_mapping, regressedFlag_eq]
    cases fr with
    | false => simp
    | true =>
      by_cases hP : pyRound1 (scoreValOf h - scoreValOf b) < 0 <;> simp [hP]
  · have e1 : scoreValOf tinyBase = 1 / 25 := rfl
    have e2 : scoreValOf tinyHead = 0 := rfl
    rw [e1, e2]; norm_num
  · rw [regressedFlag_eq, tiny_round_zero]
    simp
  · rw [mainOutcome_mapping, regressedFlag_eq, tiny_round_zero]
    simp

/-- Witness for C9: the exit-1 characterisation applied at the concrete
pair with raw regression 0.04 and fail-on-regression set. -/
theorem claim_C9_witness :
    ¬ mainOutcome (.mapping tinyBase) (.mapping tinyHead) true = .exited 1 := by
  have h := (claim_C9_rounded_regression.2.1 tinyBase tinyHead true).mp
  intro hc
  rcases h hc with ⟨-, hlt⟩
  rw [tiny_round_zero] at hlt
  exact absurd hlt (by norm_num)

/-! ## Claim C3 (corrected) -/

theorem pyRound1_zero : pyRound1 0 = 0 := by
  rw [pyRound1]
  have h : (10 : ℚ) * 0 = ((0 : ℤ) : ℚ) := by norm_num
  rw [h, rhe_int]
  norm_num

theorem regressed_docNone : regressedFlag (compute_delta docNone docNone) = false := by
  rw [regressedFlag_eq]
  have h : scoreValOf docNone - scoreValOf docNone = 0 := by ring
  rw [h, pyRound1_zero]
  simp

/-- Counterexample to C3 as stated: a head input that exists and parses as
JSON but is not a mapping at top level does not exit with code 3; the
`.get` call inside `compute_delta` raises an uncaught `AttributeError`
(only `JSONDecodeError` and `KeyError` are caught). -/
theorem claim_C3_cex :
    mainOutcome (.mapping docNone) .notMapping false = .uncaught
  ∧ Outcome.uncaught ≠ .exited 3 := by
  exact ⟨rfl, by simp⟩

/-- Claim C3 as amended: exit code 0 on normal completion; exit code 1 iff
fail-on-regression is set and the (rounded) score delta is negative; exit
code 3 iff an input path is missing or an input fails to decode as JSON; an
input that decodes to a non-mapping instead terminates abnormally with an
uncaught exception. -/
theorem claim_C3_exit_codes (b h : FileInput) (fr : Bool) :
    (mainOutcome b h fr = .exited 3
      ↔ b = .missing ∨ h = .missing ∨ b = .invalidJson ∨ h = .invalidJson)
  ∧ (mainOutcome b h fr = .exited 1
      ↔ ∃ db dh, b = .mapping db ∧ h = .mapping dh ∧ fr = true
          ∧ regressedFlag (compute_delta db dh) = true)
  ∧ (mainOutcome b h fr = .exited 0
      ↔ ∃ db dh, b = .mapping db ∧ h = .mapping dh
          ∧ (fr && regressedFlag (compute_delta db dh)) = false)
  ∧ (mainOutcome b h fr = .uncaught
      ↔ ((b = .notMapping ∧ h ≠ .missing ∧ h ≠ .invalidJson)
         ∨ (h = .notMapping ∧ b ≠ .missing ∧ b ≠ .invalidJson))) := by
  cases b <;> cases h <;> try simp [mainOutcome]
  rename_i db dh
  cases hc : fr && regressedFlag (compute_delta db dh) <;> cases fr <;>
    simp_all [mainOutcome]

/-- Witness for C3: the classification applied at two concrete inputs. -/
theorem claim_C3_witness :
    mainOutcome .missing .notMapping false = .exited 3
  ∧ mainOutcome (.mapping docNone) (.mapping docNone) true = .exited 0 :=
  ⟨(claim_C3_exit_codes .missing .notMapping false).1.mpr (Or.inl rfl),
   (claim_C3_exit_codes (.mapping docNone) (.mapping docNone) true).2.2.1.mpr
     ⟨docNone, docNone, rfl, rfl, by rw [Bool.true_and, regressed_docNone]⟩⟩

/-! ## Claim C4 -/

/-- Claim C4: the output of `find_new_uninstrumented` is the order-preserving
prefix of at most 10 entries of the rendered qualifying sites in head order;
its length never exceeds 10, and with 20 or more qualifying sites it is
exactly 10. -/
theorem claim_C4_cap (b h : Doc) :
    (find_new_uninstrumented b h).length ≤ 10
  ∧ (∃ rest, find_new_uninstrumented b h ++ rest = (selectedSites b h).map renderSite)
  ∧ (20 ≤ (selectedSites b h).length → (find_new_uninstrumented b h).length = 10) := by
  refine ⟨?_, ⟨((selectedSites b h).map renderSite).drop 10, ?_⟩, fun h20 => ?_⟩
  · rw [find_new_eq]
    simp [List.length_take]
  · rw [find_new_eq]
    exact List.take_append_drop 10 _
  · rw [find_new_eq]
    simp only [List.length_take, List.length_map]
    omega

/-- Witness for C4 at a head document with 21 qualifying sites. -/
theorem claim_C4_witness :
    20 ≤ (selectedSites docNone bigHead).length
  ∧ (find_new_uninstrumented docNone bigHead).length = 10 :=
  ⟨by decide, (claim_C4_cap docNone bigHead).2.2 (by decide)⟩

/-! ## Claim C10 -/

/-- Claim C10: `find_new_uninstrumented` does not deduplicate within the
head site list; each occurrence of a qualifying site is emitted (here stated
below the cap, where truncation cannot drop occurrences). -/
theorem claim_C10_no_dedup (b h : Doc) (s : Site)
    (hlen : (selectedSites b h).length ≤ 10) :
    (selectedSites b h).count s ≤ (find_new_uninstrumented b h).count (renderSite s) := by
  rw [find_new_eq, List.take_of_length_le (by simpa using hlen)]
  exact List.count_le_count_map _ _ _

/-- Witness for C10: a site occurring three times in head is emitted three
times. -/
theorem claim_C10_witness :
    (selectedSites docNone dupHead).count dupSite
      ≤ (find_new_uninstrumented docNone dupHead).count (renderSite dupSite)
  ∧ (selectedSites docNone dupHead).count dupSite = 3
  ∧ (find_new_uninstrumented docNone dupHead).count (renderSite dupSite) = 3 :=
  ⟨claim_C10_no_dedup docNone dupHead dupSite (by decide), by decide, by decide⟩

/-! ## Claim C8 -/

/-- Claim C8: `render_markdown` is deterministic: it is modelled as a pure
function of the pair (delta, new_sites) — the source performs no locale,
time, or environment reads — so equal inputs give byte-identical text. -/
theorem claim_C8_deterministic (d d' : DeltaRec) (ns ns' : List SiteOut)
    (hd : d = d') (hn : ns = ns') :
    render_markdown d ns = render_markdown d' ns' := by
  rw [hd, hn]

/-- Witness for C8 at a concrete record. -/
theorem claim_C8_witness : render_markdown d0 [] = render_markdown d0 [] :=
  claim_C8_deterministic d0 d0 [] [] rfl rfl

/-! ## Claim C1 (corrected) -/

theorem keyOf_congr {t s : Site} (h : tripleOf t = tripleOf s) : keyOf t = keyOf s := by
  unfold tripleOf at h
  obtain ⟨h1, h2, h3⟩ : t.file = s.file ∧ t.line = s.line ∧ t.call = s.call := by
    simpa [Prod.ext_iff] using h
  unfold keyOf
  rw [h1, h2, h3]

/-- Counterexample to C1 as stated: identity is compared via the joined
string `f"{file}:{line}:{call}"`, which is not injective in the triple.
Base site ("a:0", 1, "c") and head site ("a", 0, "1:c") have distinct
(file, line, call) triples but the same key "a:0:1:c", so the
uninstrumented head site, absent from base by triple identity, is not
reported. -/
theorem claim_C1_cex :
    cexSite ∈ sitesOf cexHead
  ∧ cexSite.instrumented.getD false = false
  ∧ (∀ t ∈ sitesOf cexBase, tripleOf t ≠ tripleOf cexSite)
  ∧ renderSite cexSite ∉ find_new_uninstrumented cexBase cexHead
  ∧ find_new_uninstrumented cexBase cexHead = [] := by decide

/-- Claim C1 as amended: identity comparison is exact match on the joined
key `file:line:call` (which coincides with triple equality whenever the
components contain no colon). An uninstrumented head site whose key is
absent from the base key set is always selected — and appears in the output
whenever at most 10 sites qualify — and a head site whose (file, line,
call) triple occurs in the base site list is never selected, even when its
instrumented flag or provider differs. -/
theorem claim_C1_identity (b h : Doc) (s : Site) :
    (s ∈ sitesOf h → s.instrumented.getD false = false →
      keyOf s ∉ (sitesOf b).map keyOf →
      (renderSite s ∈ (selectedSites b h).map renderSite
        ∧ ((selectedSites b h).length ≤ 10 →
            renderSite s ∈ find_new_uninstrumented b h)))
  ∧ (s ∈ sitesOf h → (∃ t ∈ sitesOf b, tripleOf t = tripleOf s) →
      s ∉ selectedSites b h) := by
  constructor
  · intro hs hinstr hkey
    have hq : qualifies b s = true := by
      simp [qualifies, hinstr, hkey]
    have hsel : s ∈ selectedSites b h := List.mem_filter.mpr ⟨hs, hq⟩
    refine ⟨List.mem_map_of_mem renderSite hsel, fun hlen => ?_⟩
    rw [find_new_eq, List.take_of_length_le (by simpa using hlen)]
    exact List.mem_map_of_mem renderSite hsel
  · rintro hs ⟨t, ht, htr⟩ hmem
    have hq := (List.mem_filter.mp hmem).2
    simp only [qualifies, Bool.and_eq_true, Bool.not_eq_true'] at hq
    have hknot : keyOf s ∉ (sitesOf b).map keyOf := by simpa using hq.2
    exact hknot (keyOf_congr htr ▸ List.mem_map_of_mem keyOf ht)

/-- Witness for C1: a genuinely new uninstrumented site is reported, and a
site whose triple occurs in base with a different provider and flag is not. -/
theorem claim_C1_witness :
    renderSite dupSite ∈ find_new_uninstrumented docNone dupHead
  ∧ sameHeadSite ∉ selectedSites sameTripleBase sameTripleHead :=
  ⟨((claim_C1_identity docNone dupHead dupSite).1 (by decide) (by decide)
      (by decide)).2 (by decide),
   (claim_C1_identity sameTripleBase sameTripleHead sameHeadSite).2 (by decide)
     ⟨sameBaseSite, by decide, by decide⟩⟩

/-! ## Substring machinery for the rendering claims -/

theorem not_infix_of_absent {p l : Str} {c : Char} (hcp : c ∈ p) (hcl : c ∉ l) :
    ¬ p <:+: l := fun h => hcl (h.subset hcp)

theorem infix_app_left {p a : Str} (b : Str) (h : p <:+: a) : p <:+: a ++ b :=
  h.trans (List.prefix_append a b).isInfix

theorem infix_app_right {p b : Str} (a : Str) (h : p <:+: b) : p <:+: a ++ b :=
  h.trans (List.suffix_append a b).isInfix

/-- An occurrence of a pattern that avoids the separator `c` lies entirely
on one side of it. -/
theorem infix_sep_iff {p : Str} {c : Char} (hp : p ≠ []) (hc : c ∉ p)
    (a b : Str) : p <:+: a ++ c :: b ↔ p <:+: a ∨ p <:+: b := by
  induction a with
  | nil =>
    simp only [List.nil_append]
    constructor
    · intro h
      rcases List.infix_cons_iff.mp h with h1 | h2
      · rcases List.prefix_cons_iff.mp h1 with h3 | ⟨t, hteq, -⟩
        · exact absurd h3 hp
        · exact absurd (by rw [hteq]; exact List.mem_cons_self c t) hc
      · exact Or.inr h2
    · rintro (h | h)
      · exact absurd (List.infix_nil.mp h) hp
      · exact List.infix_cons h
  | cons x a ih =>
    constructor
    · intro h
      rcases List.infix_cons_iff.mp h with h1 | h2
      · rcases List.prefix_cons_iff.mp h1 with h3 | ⟨t, hteq, htp⟩
        · exact absurd h3 hp
        · have hct : c ∉ t := fun hm => hc (by rw [hteq]; exact List.mem_cons_of_mem x hm)
          have hta : t <+: a := by
            rcases List.prefix_or_prefix_of_prefix htp (List.prefix_append a (c :: b))
              with hta | hat
            · exact hta
            · obtain ⟨t', rfl⟩ := hat
              have ht' : t' <+: c :: b := by
                obtain ⟨r, hr⟩ := htp
                rw [List.append_assoc] at hr
                exact ⟨r, List.append_cancel_left hr⟩
              rcases List.prefix_cons_iff.mp ht' with h0 | ⟨tt, hteq2, -⟩
              · rw [h0]
                simp
              · exact absurd
                  (by rw [hteq2]; exact List.mem_append_right a (List.mem_cons_self c tt))
                  hct
          exact Or.inl (by rw [hteq]; exact (List.cons_prefix_cons.mpr ⟨rfl, hta⟩).isInfix)
      · rcases ih.mp h2 with h3 | h3
        · exact Or.inl (List.infix_cons h3)
        · exact Or.inr h3
    · rintro (h | h)
      · exact infix_app_left _ h
      · exact infix_app_right _ (List.infix_cons h)

/-- Forward direction of `infix_sep_iff`, with the left part explicit for
unification. -/
theorem peelL {p b : Str} {c : Char} (hp : p ≠ []) (hc : c ∉ p) (a : Str)
    (h : p <:+: a ++ c :: b) : p <:+: a ∨ p <:+: b :=
  (infix_sep_iff hp hc a b).mp h

/-- A token without newlines occurs in the joined text iff it occurs in one
of the lines. -/
theorem joinNl_infix_iff {p : Str} (hp : p ≠ []) (hnl : ('\n' : Char) ∉ p) :
    ∀ ls : List Str, p <:+: joinNl ls ↔ ∃ l ∈ ls, p <:+: l := by
  intro ls
  induction ls with
  | nil =>
    simp only [joinNl]
    constructor
    · intro h
      exact absurd (List.infix_nil.mp h) hp
    · rintro ⟨l, hl, -⟩
      exact absurd hl (List.not_mem_nil l)
  | cons x ls ih =>
    cases ls with
    | nil => simp [joinNl]
    | cons y ls' =>
      constructor
      · intro h
        rcases peelL hp hnl x h with h1 | h2
        · exact ⟨x, by simp, h1⟩
        · rcases ih.mp h2 with ⟨l, hl, hinf⟩
          exact ⟨l, by simp [hl], hinf⟩
      · rintro ⟨l, hl, hinf⟩
        rcases List.mem_cons.mp hl with rfl | hl'
        · exact infix_app_left _ hinf
        · exact infix_app_right _ (List.infix_cons ((ih.mpr ⟨l, hl', hinf⟩)))

/-! ### Character sets of the numeric renderings -/

theorem digitChar_mem {d : Nat} (h : d < 10) : digitChar d ∈ digitsL := by
  interval_cases d <;> decide

theorem natStrAux_chars (fuel : Nat) : ∀ n : Nat, ∀ c ∈ natStrAux fuel n, c ∈ digitsL := by
  induction fuel with
  | zero =>
    intro n c hc
    simp [natStrAux] at hc
  | succ f ih =>
    intro n c hc
    simp only [natStrAux] at hc
    by_cases h10 : n < 10
    · rw [if_pos h10] at hc
      rcases List.mem_singleton.mp hc with rfl
      exact digitChar_mem h10
    · rw [if_neg h10] at hc
      rcases List.mem_append.mp hc with h1 | h2
      · exact ih _ c h1
      · rcases List.mem_singleton.mp h2 with rfl
        exact digitChar_mem (Nat.mod_lt n (by norm_num))

theorem natStr_chars (n : Nat) : ∀ c ∈ natStr n, c ∈ numChars := by
  intro c hc
  have hsub : ∀ x ∈ digitsL, x ∈ numChars := by decide
  exact hsub _ (natStrAux_chars (n + 1) n c hc)

theorem intStr_chars (n : Int) : ∀ c ∈ intStr n, c ∈ numChars := by
  intro c hc
  unfold intStr at hc
  by_cases h : n < 0
  · rw [if_pos h] at hc
    rcases List.mem_cons.mp hc with rfl | h2
    · decide
    · exact natStr_chars _ c h2
  · rw [if_neg h] at hc
    exact natStr_chars _ c hc

theorem fmtPlusD_chars (n : Int) : ∀ c ∈ fmtPlusD n, c ∈ numChars := by
  intro c hc
  unfold fmtPlusD at hc
  by_cases h : n < 0
  · rw [if_pos h] at hc
    rcases List.mem_cons.mp hc with rfl | h2
    · decide
    · exact natStr_chars _ c h2
  · rw [if_neg h] at hc
    rcases List.mem_cons.mp hc with rfl | h2
    · decide
    · exact natStr_chars _ c h2

theorem decStr_chars (m : Nat) : ∀ c ∈ decStr m, c ∈ numChars := by
  intro c hc
  unfold decStr at hc
  rcases List.mem_append.mp hc with h1 | h2
  · exact natStr_chars _ c h1
  · rcases List.mem_cons.mp h2 with rfl | h3
    · decide
    · exact natStr_chars _ c h3

theorem fmtF1_chars (q : ℚ) : ∀ c ∈ fmtF1 q, c ∈ numChars := by
  intro c hc
  simp only [fmtF1] at hc
  by_cases h : rhe (10 * q) < 0
  · rw [if_pos h] at hc
    rcases List.mem_cons.mp hc with rfl | h2
    · decide
    · exact decStr_chars _ c h2
  · rw [if_neg h] at hc
    exact decStr_chars _ c hc

theorem fmtPlusF1_chars (q : ℚ) : ∀ c ∈ fmtPlusF1 q, c ∈ numChars := by
  intro c hc
  simp only [fmtPlusF1] at hc
  by_cases h : rhe (10 * q) < 0
  · rw [if_pos h] at hc
    rcases List.mem_cons.mp hc with rfl | h2
    · decide
    · exact decStr_chars _ c h2
  · rw [if_neg h] at hc
    rcases List.mem_cons.mp hc with rfl | h2
    · decide
    · exact decStr_chars _ c h2

/-! ### Per-row absence lemmas -/

theorem notInf_scoreRow {p : Str} {c0 : Char} {d : DeltaRec} (hc0 : c0 ∈ p)
    (h1 : c0 ∉ "| **Score** | ".toList) (h2 : c0 ∉ " | ".toList)
    (h3 : c0 ∉ " |".toList) (h4 : c0 ∉ numChars) (h5 : c0 ∉ scoreIcon d) :
    ¬ p <:+: scoreRow d := by
  apply not_infix_of_absent hc0
  intro hc
  simp only [scoreRow, List.mem_append] at hc
  rcases hc with ((((((h | h) | h) | h) | h) | h) | h) | h
  · exact h1 h
  · exact h4 (fmtF1_chars _ _ h)
  · exact h2 h
  · exact h4 (fmtF1_chars _ _ h)
  · exact h2 h
  · exact h4 (fmtPlusF1_chars _ _ h)
  · exact h5 h
  · exact h3 h

theorem notInf_countRow {p : Str} {c0 : Char} {label : Str} {m : MetricD}
    (hc0 : c0 ∈ p) (h1 : c0 ∉ "| ".toList) (h2 : c0 ∉ " | ".toList)
    (h3 : c0 ∉ " |".toList) (h4 : c0 ∉ numChars) (h5 : c0 ∉ label) :
    ¬ p <:+: countRow label m := by
  apply not_infix_of_absent hc0
  intro hc
  simp only [countRow, List.mem_append] at hc
  rcases hc with (((((((h | h) | h) | h) | h) | h) | h) | h) | h
  · exact h1 h
  · exact h5 h
  · exact h2 h
  · exact h4 (intStr_chars _ _ h)
  · exact h2 h
  · exact h4 (intStr_chars _ _ h)
  · exact h2 h
  · exact h4 (fmtPlusD_chars _ _ h)
  · exact h3 h

theorem notInf_covRow {p : Str} {c0 : Char} {d : DeltaRec} (hc0 : c0 ∈ p)
    (h1 : c0 ∉ "| Coverage | ".toList) (h2 : c0 ∉ "% | ".toList)
    (h3 : c0 ∉ "% |".toList) (h4 : c0 ∉ numChars) :
    ¬ p <:+: covRow d := by
  apply not_infix_of_absent hc0
  intro hc
  simp only [covRow, List.mem_append] at hc
  rcases hc with (((((h | h) | h) | h) | h) | h) | h
  · exact h1 h
  · exact h4 (fmtF1_chars _ _ h)
  · exact h2 h
  · exact h4 (fmtF1_chars _ _ h)
  · exact h2 h
  · exact h4 (fmtPlusF1_chars _ _ h)
  · exact h3 h

theorem notInf_gradeRow {p : Str} {d : DeltaRec} (hp : p ≠ [])
    (hsp : (' ' : Char) ∉ p)
    (hbar : ¬ p <:+: "|".toList) (hgrade : ¬ p <:+: "**Grade**".toList)
    (harrow : ¬ p <:+: "->".toList)
    (hgb : ¬ p <:+: d.grade.base) (hgh : ¬ p <:+: d.grade.head) :
    ¬ p <:+: gradeRow d := by
  intro h
  unfold gradeRow at h
  simp only [List.append_assoc] at h
  rcases peelL hp hsp "|".toList h with h | h
  · exact hbar h
  rcases peelL hp hsp "**Grade**".toList h with h | h
  · exact hgrade h
  rcases peelL hp hsp "|".toList h with h | h
  · exact hbar h
  rcases peelL hp hsp d.grade.base h with h | h
  · exact hgb h
  rcases peelL hp hsp "|".toList h with h | h
  · exact hbar h
  rcases peelL hp hsp d.grade.head h with h | h
  · exact hgh h
  rcases peelL hp hsp "|".toList h with h | h
  · exact hbar h
  rcases peelL hp hsp (gradeChange d.grade) h with h | h
  · unfold gradeChange at h
    by_cases heq : d.grade.base ≠ d.grade.head
    · rw [if_pos heq] at h
      simp only [List.append_assoc] at h
      rcases peelL hp hsp d.grade.base h with h | h
      · exact hgb h
      rcases peelL hp hsp "->".toList h with h | h
      · exact harrow h
      · exact hgh h
    · rw [if_neg heq] at h
      exact hgh h
  · exact hbar h

theorem notInf_siteRow {p : Str} {s : SiteOut} (hp : p ≠ [])
    (hsp : (' ' : Char) ∉ p) (hbt : btChar ∉ p)
    (hbar : ¬ p <:+: "|".toList)
    (hfile : ¬ p <:+: s.file) (hline : ¬ p <:+: s.line)
    (hcall : ¬ p <:+: s.call) (hprov : ¬ p <:+: s.provider) :
    ¬ p <:+: siteRow s := by
  intro h
  unfold siteRow at h
  simp only [List.append_assoc] at h
  rcases peelL hp hsp "|".toList h with h | h
  · exact hbar h
  rcases peelL hp hbt [] h with h | h
  · exact absurd (List.infix_nil.mp h) hp
  rcases peelL hp hbt s.file h with h | h
  · exact hfile h
  rcases peelL hp hsp [] h with h | h
  · exact absurd (List.infix_nil.mp h) hp
  rcases peelL hp hsp "|".toList h with h | h
  · exact hbar h
  rcases peelL hp hsp s.line h with h | h
  · exact hline h
  rcases peelL hp hsp "|".toList h with h | h
  · exact hbar h
  rcases peelL hp hbt [] h with h | h
  · exact absurd (List.infix_nil.mp h) hp
  rcases peelL hp hbt s.call h with h | h
  · exact hcall h
  rcases peelL hp hsp [] h with h | h
  · exact absurd (List.infix_nil.mp h) hp
  rcases peelL hp hsp "|".toList h with h | h
  · exact hbar h
  rcases peelL hp hsp s.provider h with h | h
  · exact hprov h
  · exact hbar h


/-- No line of the rendered report contains "improved" when the score delta
is not positive and the text-valued inputs are token-free. -/
theorem notImp_lines (d : DeltaRec) (ns : List SiteOut)
    (hd : ¬ 0 < d.score.delta)
    (hgb : ¬ impTok <:+: d.grade.base) (hgh : ¬ impTok <:+: d.grade.head)
    (hns : ∀ s ∈ ns, cleanSite s) :
    ∀ l ∈ renderLines d ns, ¬ impTok <:+: l := by
  have hic : ('i' : Char) ∉ scoreIcon d := by
    unfold scoreIcon
    rw [if_neg hd]
    by_cases hneg : d.score.delta < 0
    · rw [if_pos hneg]; decide
    · rw [if_neg hneg]; exact List.not_mem_nil _
  have hsr : ¬ impTok <:+: scoreRow d :=
    @notInf_scoreRow impTok 'i' d (by decide) (by decide) (by decide) (by decide)
      (by decide) hic
  have hgr : ¬ impTok <:+: gradeRow d :=
    notInf_gradeRow (by decide) (by decide) (by decide) (by decide) (by decide) hgb hgh
  have hc1 : ¬ impTok <:+: countRow "Call Sites".toList d.sites_total :=
    @notInf_countRow impTok 'p' _ _ (by decide) (by decide) (by decide) (by decide)
      (by decide) (by decide)
  have hc2 : ¬ impTok <:+: countRow "Instrumented".toList d.instrumented :=
    @notInf_countRow impTok 'p' _ _ (by decide) (by decide) (by decide) (by decide)
      (by decide) (by decide)
  have hc3 : ¬ impTok <:+: countRow "Uninstrumented".toList d.uninstrumented :=
    @notInf_countRow impTok 'p' _ _ (by decide) (by decide) (by decide) (by decide)
      (by decide) (by decide)
  have hcv : ¬ impTok <:+: covRow d :=
    @notInf_covRow impTok 'i' d (by decide) (by decide) (by decide) (by decide)
      (by decide)
  intro l hl
  unfold renderLines at hl
  by_cases hE : ns.isEmpty = true
  · rw [if_pos hE] at hl
    simp only [List.mem_append, List.mem_cons, List.mem_map, List.not_mem_nil,
      or_false, false_or] at hl
    rcases hl with (rfl|rfl|rfl|rfl|rfl|rfl|rfl|rfl|rfl|rfl) | (rfl|rfl|rfl)
    · decide
    · decide
    · decide
    · decide
    · exact hsr
    · exact hgr
    · exact hc1
    · exact hc2
    · exact hc3
    · exact hcv
    · decide
    · decide
    · decide
  · rw [if_neg hE] at hl
    simp only [List.mem_append, List.mem_cons, List.mem_map, List.not_mem_nil,
      or_false, false_or] at hl
    rcases hl with ((rfl|rfl|rfl|rfl|rfl|rfl|rfl|rfl|rfl|rfl)
      | ((rfl|rfl|rfl|rfl|rfl) | ⟨s, hs, rfl⟩) | (rfl|rfl)) | (rfl|rfl|rfl)
    · decide
    · decide
    · decide
    · decide
    · exact hsr
    · exact hgr
    · exact hc1
    · exact hc2
    · exact hc3
    · exact hcv
    · decide
    · decide
    · decide
    · decide
    · decide
    · exact notInf_siteRow (by decide) (by decide) (by decide) (by decide)
        (hns s hs).1.1 (hns s hs).2.1.1 (hns s hs).2.2.1.1 (hns s hs).2.2.2.1
    · decide
    · decide
    · decide
    · decide
    · decide

/-- No line of the rendered report contains "regressed" when the score delta
is not negative and the text-valued inputs are token-free. -/
theorem notReg_lines (d : DeltaRec) (ns : List SiteOut)
    (hd : ¬ d.score.delta < 0)
    (hgb : ¬ regTok <:+: d.grade.base) (hgh : ¬ regTok <:+: d.grade.head)
    (hns : ∀ s ∈ ns, cleanSite s) :
    ∀ l ∈ renderLines d ns, ¬ regTok <:+: l := by
  have hic : ('g' : Char) ∉ scoreIcon d := by
    unfold scoreIcon
    by_cases hpos : d.score.delta > 0
    · rw [if_pos hpos]; decide
    · rw [if_neg hpos, if_neg hd]; exact List.not_mem_nil _
  have hsr : ¬ regTok <:+: scoreRow d :=
    @notInf_scoreRow regTok 'g' d (by decide) (by decide) (by decide) (by decide)
      (by decide) hic
  have hgr : ¬ regTok <:+: gradeRow d :=
    notInf_gradeRow (by decide) (by decide) (by decide) (by decide) (by decide) hgb hgh
  have hc1 : ¬ regTok <:+: countRow "Call Sites".toList d.sites_total :=
    @notInf_countRow regTok 'g' _ _ (by decide) (by decide) (by decide) (by decide)
      (by decide) (by decide)
  have hc2 : ¬ regTok <:+: countRow "Instrumented".toList d.instrumented :=
    @notInf_countRow regTok 'g' _ _ (by decide) (by decide) (by decide) (by decide)
      (by decide) (by decide)
  have hc3 : ¬ regTok <:+: countRow "Uninstrumented".toList d.uninstrumented :=
    @notInf_countRow regTok 'g' _ _ (by decide) (by decide) (by decide) (by decide)
      (by decide) (by decide)
  have hcv : ¬ regTok <:+: covRow d :=
    @notInf_covRow regTok 's' d (by decide) (by decide) (by decide) (by decide)
      (by decide)
  intro l hl
  unfold renderLines at hl
  by_cases hE : ns.isEmpty = true
  · rw [if_pos hE] at hl
    simp only [List.mem_append, List.mem_cons, List.mem_map, List.not_mem_nil,
      or_false, false_or] at hl
    rcases hl with (rfl|rfl|rfl|rfl|rfl|rfl|rfl|rfl|rfl|rfl) | (rfl|rfl|rfl)
    · decide
    · decide
    · decide
    · decide
    · exact hsr
    · exact hgr
    · exact hc1
    · exact hc2
    · exact hc3
    · exact hcv
    · decide
    · decide
    · decide
  · rw [if_neg hE] at hl
    simp only [List.mem_append, List.mem_cons, List.mem_map, List.not_mem_nil,
      or_false, false_or] at hl
    rcases hl with ((rfl|rfl|rfl|rfl|rfl|rfl|rfl|rfl|rfl|rfl)
      | ((rfl|rfl|rfl|rfl|rfl) | ⟨s, hs, rfl⟩) | (rfl|rfl)) | (rfl|rfl|rfl)
    · decide
    · decide
    · decide
    · decide
    · exact hsr
    · exact hgr
    · exact hc1
    · exact hc2
    · exact hc3
    · exact hcv
    · decide
    · decide
    · decide
    · decide
    · decide
    · exact notInf_siteRow (by decide) (by decide) (by decide) (by decide)
        (hns s hs).1.2 (hns s hs).2.1.2 (hns s hs).2.2.1.2 (hns s hs).2.2.2.2
    · decide
    · decide
    · decide
    · decide
    · decide

theorem imp_in_render {d : DeltaRec} (ns : List SiteOut) (hd : 0 < d.score.delta) :
    impTok <:+: render_markdown d ns := by
  have h1 : impTok <:+: scoreIcon d := by
    unfold scoreIcon
    rw [if_pos hd]
    decide
  have h2 : impTok <:+: scoreRow d := by
    unfold scoreRow
    exact infix_app_left _ (infix_app_right _ h1)
  have h3 : scoreRow d ∈ renderLines d ns := by
    unfold renderLines
    simp
  rw [render_markdown]
  exact (joinNl_infix_iff (by decide) (by decide) _).mpr ⟨_, h3, h2⟩

theorem reg_in_render {d : DeltaRec} (ns : List SiteOut) (hd : d.score.delta < 0) :
    regTok <:+: render_markdown d ns := by
  have h1 : regTok <:+: scoreIcon d := by
    unfold scoreIcon
    rw [if_neg (by linarith), if_pos hd]
    decide
  have h2 : regTok <:+: scoreRow d := by
    unfold scoreRow
    exact infix_app_left _ (infix_app_right _ h1)
  have h3 : scoreRow d ∈ renderLines d ns := by
    unfold renderLines
    simp
  rw [render_markdown]
  exact (joinNl_infix_iff (by decide) (by decide) _).mpr ⟨_, h3, h2⟩

/-! ## Claim C7 (corrected) -/

/-- Counterexample to C7 as stated: with a zero score delta but a new site
whose file name contains the word "improved", the rendered report contains
the substring "improved". The labels are not the only possible source of
those substrings: grades and site text fields are interpolated verbatim. -/
theorem claim_C7_cex :
    d0.score.delta = 0 ∧ impTok <:+: render_markdown d0 [s0bad] := by
  refine ⟨rfl, ?_⟩
  have h1 : impTok <:+: s0bad.file := by decide
  have h2 : impTok <:+: siteRow s0bad := by
    unfold siteRow
    exact infix_app_left _ (infix_app_left _ (infix_app_left _ (infix_app_left _
      (infix_app_left _ (infix_app_left _ (infix_app_left _
        (infix_app_right _ h1)))))))
  have h3 : siteRow s0bad ∈ renderLines d0 [s0bad] := by
    unfold renderLines
    simp
  rw [render_markdown]
  exact (joinNl_infix_iff (by decide) (by decide) _).mpr ⟨_, h3, h2⟩

/-- Claim C7 as amended: provided the grade strings and the site text fields
contain neither "improved" nor "regressed" as substrings, the rendered text
contains "improved" iff the score delta is positive and "regressed" iff the
score delta is negative (hence neither when it is zero). -/
theorem claim_C7_labels (d : DeltaRec) (ns : List SiteOut)
    (hgb : noTok d.grade.base) (hgh : noTok d.grade.head)
    (hns : ∀ s ∈ ns, cleanSite s) :
    (impTok <:+: render_markdown d ns ↔ 0 < d.score.delta)
  ∧ (regTok <:+: render_markdown d ns ↔ d.score.delta < 0) := by
  constructor
  · constructor
    · intro h
      by_contra hd
      rw [render_markdown] at h
      rcases (joinNl_infix_iff (by decide) (by decide) _).mp h with ⟨l, hl, hinf⟩
      exact notImp_lines d ns hd hgb.1 hgh.1 hns l hl hinf
    · exact imp_in_render ns
  · constructor
    · intro h
      by_contra hd
      rw [render_markdown] at h
      rcases (joinNl_infix_iff (by decide) (by decide) _).mp h with ⟨l, hl, hinf⟩
      exact notReg_lines d ns hd hgb.2 hgh.2 hns l hl hinf
    · exact reg_in_render ns

/-- Witness for C7 at a positive score delta with token-free fields. -/
theorem claim_C7_witness : impTok <:+: render_markdown dPos [] :=
  (claim_C7_labels dPos [] ⟨by decide, by decide⟩ ⟨by decide, by decide⟩
    (by simp)).1.mpr (by norm_num [dPos])
